import Mathlib

/-!
Verification development for the single-page frontend in
`src/frontend/AI_financial_analyst/src/App.tsx`.

The component's logic is embedded shallowly:

* JavaScript numbers are modelled by `JSNum`: `nan`, the two infinities, and
  finite values carried as exact rationals (`ℚ` stands in for IEEE doubles;
  none of the verified properties depends on rounding).
* `String.prototype.trim`, `String.prototype.split(',')` and the global
  `parseFloat` are modelled character by character following their
  ECMAScript definitions (`parseFloat` takes the longest prefix matching a
  decimal literal or a signed `Infinity`, and returns `nan` when no prefix
  matches).
* The `handlePredict` event handler is modelled as a trace of state-setter
  and fetch events, parameterised by an oracle giving the outcome of the
  one network call; folding the trace over the initial component state
  yields the state the UI renders from.
-/

inductive JSNum where
  | nan
  | posInf
  | negInf
  | fin (q : ℚ)
deriving DecidableEq

def JSNum.isNaN : JSNum → Bool
  | .nan => true
  | _ => false

def JSNum.isFinite : JSNum → Bool
  | .fin _ => true
  | _ => false

/-- Whitespace as stripped by `String.prototype.trim` (ASCII part). -/
def isJsSpace (c : Char) : Bool :=
  c = ' ' || c = '\t' || c = '\n' || c = '\r' || c = '\x0b' || c = '\x0c'

/-- Model of `s.trim()`. -/
def jsTrim (s : String) : String :=
  String.mk (((s.data.dropWhile isJsSpace).reverse.dropWhile isJsSpace).reverse)

/-- Model of `s.split(',')` on the character list: splits at every comma and
keeps empty fragments, so the result always has one more entry than the
number of commas. -/
def splitCommaChars : List Char → List (List Char)
  | [] => [[]]
  | c :: rest =>
    if c = ',' then [] :: splitCommaChars rest
    else
      match splitCommaChars rest with
      | [] => [[c]]
      | g :: gs => (c :: g) :: gs

/-- Model of `s.split(',')`. -/
def splitCommaStr (s : String) : List String :=
  (splitCommaChars s.data).map String.mk

def digitsToNat (ds : List Char) : Nat :=
  ds.foldl (fun a c => 10 * a + (c.toNat - '0'.toNat)) 0

/-- Consume an optional leading sign; `true` means negative. -/
def parseSign : List Char → Bool × List Char
  | '-' :: r => (true, r)
  | '+' :: r => (false, r)
  | l => (false, l)

/-- Model of the global `parseFloat`: skip leading whitespace, read an
optional sign, then either `Infinity` or the longest decimal-literal prefix
(integer digits, optional fraction, optional exponent); `nan` if no digits
are found.  The numeric value is assembled as an exact rational. -/
def jsParseFloat (s : String) : JSNum :=
  let l0 := s.data.dropWhile isJsSpace
  let sl := parseSign l0
  let neg := sl.1
  let l := sl.2
  if l.take 8 = "Infinity".data then
    if neg then JSNum.negInf else JSNum.posInf
  else
    let intDs := l.takeWhile Char.isDigit
    let l1 := l.dropWhile Char.isDigit
    let fr : List Char × List Char :=
      match l1 with
      | '.' :: r => (r.takeWhile Char.isDigit, r.dropWhile Char.isDigit)
      | _ => ([], l1)
    let fracDs := fr.1
    let l2 := fr.2
    if intDs.isEmpty && fracDs.isEmpty then JSNum.nan
    else
      let exp : Int :=
        match l2 with
        | c :: r =>
          if c = 'e' || c = 'E' then
            let es := parseSign r
            let eDs := es.2.takeWhile Char.isDigit
            if eDs.isEmpty then 0
            else if es.1 then -(digitsToNat eDs : Int) else (digitsToNat eDs : Int)
          else 0
        | [] => 0
      let mantNum : Int := (digitsToNat intDs * 10 ^ fracDs.length + digitsToNat fracDs : Nat)
      let num : Int := if neg then -mantNum else mantNum
      let q : ℚ :=
        if 0 ≤ exp then Rat.divInt (num * 10 ^ exp.toNat) (10 ^ fracDs.length)
        else Rat.divInt num (10 ^ fracDs.length * 10 ^ (-exp).toNat)
      JSNum.fin q

/-- Outcome of `parseFeatures`: the TypeScript function returns `null` for
blank input, throws an `Error` carrying a message, or returns the parsed
array. -/
inductive ParseOutcome where
  | nullResult
  | failure (msg : String)
  | ok (v : List JSNum)
deriving DecidableEq

/-- The `trimmed.split(',').map(...)` body of `parseFeatures`: each item is
trimmed and parsed; the first item whose parse is `NaN` aborts the map with
the thrown message. -/
def parseTokens : List String → Except String (List JSNum)
  | [] => .ok []
  | item :: rest =>
    let t := jsTrim item
    let num := jsParseFloat t
    if num.isNaN then .error ("Invalid number: " ++ t)
    else
      match parseTokens rest with
      | .error e => .error e
      | .ok ns => .ok (num :: ns)

/-- Model of `parseFeatures` (App.tsx lines 16-35). -/
def parseFeatures (inputText : String) : ParseOutcome :=
  let trimmed := jsTrim inputText
  if trimmed = "" then .nullResult
  else
    match parseTokens (splitCommaStr trimmed) with
    | .error m => .failure m
    | .ok numbers =>
      if numbers.length ≠ 46 then
        .failure ("Expected 46 features, but got " ++ toString numbers.length)
      else .ok numbers

/-- The success-response shape consumed by the UI. -/
structure PredictionResult where
  prediction : Int
  default_probability : ℚ
deriving DecidableEq

/-- A decoded JSON response body.  A success body carries `prediction` and
`default_probability`; an error body carries an optional `detail` string.
The UI reads only the fields relevant to the branch it is in. -/
structure RespBody where
  detail : Option String
  prediction : Int
  default_probability : ℚ
deriving DecidableEq

/-- Outcome of `await response.json()`: either the decoded body or a thrown
parse error carrying a message. -/
inductive JsonOutcome where
  | parseFail (msg : String)
  | parsed (body : RespBody)
deriving DecidableEq

/-- Outcome of `await fetch(...)`: rejection with an `Error` message, or a
response with its `ok` flag, status, status text and JSON body. -/
inductive FetchOutcome where
  | reject (msg : String)
  | resolve (ok : Bool) (status : Nat) (statusText : String) (body : JsonOutcome)
deriving DecidableEq

/-- Observable actions of `handlePredict`: React state setters and the one
network call. -/
inductive Event where
  | setError (e : Option String)
  | setResult (r : Option PredictionResult)
  | setLoading (b : Bool)
  | fetchCall (features : List JSNum)
deriving DecidableEq

/-- The expression on App.tsx line 60: `errorData.detail` or else the
template string "HTTP status: statusText".  JavaScript's or-else operator
falls through on the falsy values `undefined` and the empty string. -/
def errorDetailMessage (detail : Option String) (status : Nat) (statusText : String) : String :=
  match detail with
  | some d => if d = "" then "HTTP " ++ toString status ++ ": " ++ statusText else d
  | none => "HTTP " ++ toString status ++ ": " ++ statusText

/-- Model of `handlePredict` (App.tsx lines 37-70) as the trace of events it
performs, given the input text and an oracle for the fetch outcome.  The
`finally` block makes every path end with `setLoading false`; note that
`setLoading true` is only reached after `parseFeatures` has succeeded. -/
def handlePredict (input : String) (fetch : List JSNum → FetchOutcome) : List Event :=
  [Event.setError none, Event.setResult none] ++
  (match parseFeatures input with
   | .nullResult => [Event.setError (some "Please enter exactly 46 comma-separated numbers")]
   | .failure m => [Event.setError (some m)]
   | .ok features =>
     [Event.setLoading true, Event.fetchCall features] ++
     (match fetch features with
      | .reject m => [Event.setError (some m)]
      | .resolve ok status statusText body =>
        if ok then
          match body with
          | .parseFail m => [Event.setError (some m)]
          | .parsed d => [Event.setResult (some ⟨d.prediction, d.default_probability⟩)]
        else
          match body with
          | .parseFail m => [Event.setError (some m)]
          | .parsed d => [Event.setError (some (errorDetailMessage d.detail status statusText))])) ++
  [Event.setLoading false]

/-- The component state touched by `handlePredict`. -/
structure UIState where
  loading : Bool
  result : Option PredictionResult
  error : Option String
deriving DecidableEq

def applyEvent (s : UIState) : Event → UIState
  | .setError e => { s with error := e }
  | .setResult r => { s with result := r }
  | .setLoading b => { s with loading := b }
  | .fetchCall _ => s

def runEvents (s : UIState) (l : List Event) : UIState :=
  l.foldl applyEvent s

def initialState : UIState :=
  { loading := false, result := none, error := none }

/-- The state the UI renders from after one complete run of `handlePredict`. -/
def finalState (input : String) (fetch : List JSNum → FetchOutcome) : UIState :=
  runEvents initialState (handlePredict input fetch)

/-- Model of `getRiskLevel` (App.tsx lines 77-81). -/
structure RiskInfo where
  level : String
  color : String
  bgColor : String
  borderColor : String
deriving DecidableEq

def getRiskLevel (probability : ℚ) : RiskInfo :=
  if probability < mkRat 3 10 then
    ⟨"Low", "text-emerald-600", "bg-emerald-50", "border-emerald-200"⟩
  else if probability < mkRat 7 10 then
    ⟨"Medium", "text-amber-600", "bg-amber-50", "border-amber-200"⟩
  else
    ⟨"High", "text-red-600", "bg-red-50", "border-red-200"⟩

/-- The PREDICTION card text (App.tsx lines 233-237). -/
def predictionText (r : PredictionResult) : String :=
  if r.prediction = 1 then "Default Risk" else "Safe Loan"

/-- `toFixed(1)` on a nonnegative rational: the nearest multiple of 1/10,
ties rounded up, printed with one decimal digit. -/
def toFixed1Abs (q : ℚ) : String :=
  let n : Nat := (20 * q.num.natAbs + q.den) / (2 * q.den)
  toString (n / 10) ++ "." ++ toString (n % 10)

/-- Model of `x.toFixed(1)` (ECMAScript: for negative x the sign is printed
and the magnitude is rounded). -/
def toFixed1 (q : ℚ) : String :=
  if q.num < 0 then "-" ++ toFixed1Abs q else toFixed1Abs q

/-- Multiply a rational by 100 without irreducible field operations. -/
def mul100 (q : ℚ) : ℚ :=
  Rat.divInt (100 * q.num) q.den

/-- The DEFAULT PROBABILITY card text
`(result.default_probability * 100).toFixed(1) + "%"` (App.tsx line 248). -/
def probabilityText (r : PredictionResult) : String :=
  toFixed1 (mul100 r.default_probability) ++ "%"

/-- The risk-bar gradient class (App.tsx lines 263-265): strict `>`
comparisons, checked from the high end down. -/
def riskBarClass (p : ℚ) : String :=
  if mkRat 7 10 < p then "bg-gradient-to-r from-red-500 to-red-600"
  else if mkRat 3 10 < p then "bg-gradient-to-r from-amber-500 to-amber-600"
  else "bg-gradient-to-r from-emerald-500 to-emerald-600"

/-- The bar gradient one would expect from a risk label, used to compare the
two threshold mappings of App.tsx. -/
def tierGradient (level : String) : String :=
  if level = "Low" then "bg-gradient-to-r from-emerald-500 to-emerald-600"
  else if level = "Medium" then "bg-gradient-to-r from-amber-500 to-amber-600"
  else "bg-gradient-to-r from-red-500 to-red-600"

/-- Substring test on character lists (used to state that an error message
mentions a token or a count). -/
def listContains (l sub : List Char) : Bool :=
  (List.range (l.length + 1)).any fun i => (l.drop i).take sub.length == sub

/-- `sub` occurs contiguously in `s`. -/
def strContains (s sub : String) : Bool :=
  listContains s.data sub.data

/-- A fetch oracle that rejects, as a network failure would. -/
def fetchReject : List JSNum → FetchOutcome :=
  fun _ => FetchOutcome.reject "Failed to fetch"

/-- A valid input: 46 comma-separated ones. -/
def input46 : String :=
  "1,1,1,1,1,1,1,1,1,1,1,1,1,1,1,1,1,1,1,1,1,1,1,1,1,1,1,1,1,1,1,1,1,1,1,1,1,1,1,1,1,1,1,1,1,1"

/-- 46 comma-separated tokens, the first of which parses to positive
infinity. -/
def inputInf46 : String :=
  "Infinity,1,1,1,1,1,1,1,1,1,1,1,1,1,1,1,1,1,1,1,1,1,1,1,1,1,1,1,1,1,1,1,1,1,1,1,1,1,1,1,1,1,1,1,1,1"

lemma ne_nan_of_isNaN_false {x : JSNum} (h : x.isNaN = false) : x ≠ JSNum.nan := by
  cases x <;> simp_all [JSNum.isNaN]

lemma parseTokens_ok_of_valid (ts : List String)
    (h : ∀ t ∈ ts, (jsParseFloat (jsTrim t)).isNaN = false) :
    parseTokens ts = .ok (ts.map fun t => jsParseFloat (jsTrim t)) := by
  induction ts with
  | nil => rfl
  | cons a l ih =>
    have ha := h a (List.mem_cons_self a l)
    have hl : ∀ t ∈ l, (jsParseFloat (jsTrim t)).isNaN = false :=
      fun t ht => h t (List.mem_cons_of_mem a ht)
    simp [parseTokens, ha, ih hl]

lemma parseTokens_ok_not_nan :
    ∀ (ts : List String) (v : List JSNum),
      parseTokens ts = .ok v → ∀ x ∈ v, x ≠ JSNum.nan := by
  intro ts
  induction ts with
  | nil =>
    intro v hv x hx
    simp only [parseTokens] at hv
    cases hv
    simp at hx
  | cons a l ih =>
    intro v hv x hx
    simp only [parseTokens] at hv
    by_cases hn : (jsParseFloat (jsTrim a)).isNaN
    · simp [hn] at hv
    · simp only [Bool.not_eq_true] at hn
      rw [if_neg (by simp [hn])] at hv
      cases hpl : parseTokens l with
      | error e => rw [hpl] at hv; cases hv
      | ok ns =>
        rw [hpl] at hv
        cases hv
        rcases List.mem_cons.mp hx with h1 | h1
        · subst h1; exact ne_nan_of_isNaN_false hn
        · exact ih ns hpl x h1

lemma parseTokens_error_of_invalid :
    ∀ ts : List String,
      (∃ t ∈ ts, (jsParseFloat (jsTrim t)).isNaN = true) →
      ∃ t ∈ ts, (jsParseFloat (jsTrim t)).isNaN = true ∧
        parseTokens ts = .error ("Invalid number: " ++ jsTrim t) := by
  intro ts
  induction ts with
  | nil => rintro ⟨t, ht, -⟩; simp at ht
  | cons a l ih =>
    rintro ⟨t, ht, hnan⟩
    by_cases ha : (jsParseFloat (jsTrim a)).isNaN
    · exact ⟨a, List.mem_cons_self a l, ha, by simp [parseTokens, ha]⟩
    · have htl : t ∈ l := by
        rcases List.mem_cons.mp ht with h1 | h1
        · subst h1; exact absurd hnan ha
        · exact h1
      obtain ⟨u, hu, hunan, herr⟩ := ih ⟨t, htl, hnan⟩
      refine ⟨u, List.mem_cons_of_mem a hu, hunan, ?_⟩
      simp only [Bool.not_eq_true] at ha
      simp [parseTokens, ha, herr]

lemma parseFeatures_ok_elim (input : String) (v : List JSNum)
    (hv : parseFeatures input = .ok v) :
    jsTrim input ≠ "" ∧
      parseTokens (splitCommaStr (jsTrim input)) = .ok v ∧ v.length = 46 := by
  by_cases h0 : jsTrim input = ""
  · simp [parseFeatures, h0] at hv
  · refine ⟨h0, ?_⟩
    simp only [parseFeatures, if_neg h0] at hv
    cases hpt : parseTokens (splitCommaStr (jsTrim input)) with
    | error e => simp [hpt] at hv
    | ok ns =>
      simp only [hpt] at hv
      by_cases hlen : ns.length = 46
      · simp [hlen] at hv
        subst hv
        exact ⟨rfl, hlen⟩
      · simp [hlen] at hv

lemma handlePredict_nullResult (input : String) (fetch : List JSNum → FetchOutcome)
    (h : parseFeatures input = .nullResult) :
    handlePredict input fetch =
      [Event.setError none, Event.setResult none,
       Event.setError (some "Please enter exactly 46 comma-separated numbers"),
       Event.setLoading false] := by
  simp [handlePredict, h]

lemma handlePredict_failure (input : String) (fetch : List JSNum → FetchOutcome)
    (m : String) (h : parseFeatures input = .failure m) :
    handlePredict input fetch =
      [Event.setError none, Event.setResult none,
       Event.setError (some m), Event.setLoading false] := by
  simp [handlePredict, h]

lemma finalState_nullResult (input : String) (fetch : List JSNum → FetchOutcome)
    (h : parseFeatures input = .nullResult) :
    finalState input fetch =
      ⟨false, none, some "Please enter exactly 46 comma-separated numbers"⟩ := by
  simp [finalState, handlePredict_nullResult input fetch h, runEvents, applyEvent, initialState]

lemma finalState_failure (input : String) (fetch : List JSNum → FetchOutcome)
    (m : String) (h : parseFeatures input = .failure m) :
    finalState input fetch = ⟨false, none, some m⟩ := by
  simp [finalState, handlePredict_failure input fetch m h, runEvents, applyEvent, initialState]

lemma finalState_respErr_parsed (input : String) (fetch : List JSNum → FetchOutcome)
    (f : List JSNum) (status : Nat) (statusText : String) (d : RespBody)
    (h : parseFeatures input = .ok f)
    (hf : fetch f = FetchOutcome.resolve false status statusText (JsonOutcome.parsed d)) :
    finalState input fetch =
      ⟨false, none, some (errorDetailMessage d.detail status statusText)⟩ := by
  simp [finalState, handlePredict, h, hf, runEvents, applyEvent, initialState]

lemma strContains_empty (s : String) : strContains s "" = true := by
  apply List.any_eq_true.mpr
  exact ⟨0, List.mem_range.mpr (Nat.succ_pos _), by simp⟩

lemma strContains_append_right (a b : String) : strContains (a ++ b) b = true := by
  unfold strContains listContains
  apply List.any_eq_true.mpr
  refine ⟨a.data.length, List.mem_range.mpr ?_, ?_⟩
  · rw [String.data_append, List.length_append]; omega
  · rw [String.data_append, List.drop_left]
    simp

/-- Claim C1: for every input text whose comma-separated tokens number
exactly 46 and each parse as a valid number after trimming, parseFeatures
succeeds and returns exactly those 46 values in their original order; and
parsing is all-or-nothing: any returned vector has exactly 46 elements. -/
theorem C1_parseFeatures_all_or_nothing :
    (∀ input : String,
      (splitCommaStr (jsTrim input)).length = 46 →
      (∀ t ∈ splitCommaStr (jsTrim input), (jsParseFloat (jsTrim t)).isNaN = false) →
      parseFeatures input =
        ParseOutcome.ok ((splitCommaStr (jsTrim input)).map fun t => jsParseFloat (jsTrim t))) ∧
    (∀ (input : String) (v : List JSNum),
      parseFeatures input = ParseOutcome.ok v → v.length = 46) := by
  constructor
  · intro input hlen hval
    have hne : jsTrim input ≠ "" := by
      intro h0
      rw [h0] at hlen
      have he : splitCommaStr "" = [""] := by decide
      rw [he] at hlen
      simp at hlen
    have hpt := parseTokens_ok_of_valid _ hval
    have hmaplen :
        ((splitCommaStr (jsTrim input)).map fun t => jsParseFloat (jsTrim t)).length = 46 := by
      rw [List.length_map]; exact hlen
    simp [parseFeatures, hne, hpt, hmaplen]
  · intro input v hv
    exact (parseFeatures_ok_elim input v hv).2.2

/-- Witness for C1 at the concrete 46-number input. -/
theorem C1_parseFeatures_all_or_nothing_witness :
    parseFeatures input46 =
      ParseOutcome.ok ((splitCommaStr (jsTrim input46)).map fun t => jsParseFloat (jsTrim t)) :=
  C1_parseFeatures_all_or_nothing.1 input46 (by decide) (by decide)

/-- Claim C2 as stated is false at the empty input: zero valid numbers are
found and parsing fails, but the surfaced message is the generic prompt,
which does not even contain the digit string for the count 0. -/
theorem C2_count_error_counterexample :
    parseFeatures "" = ParseOutcome.nullResult ∧
    (finalState "" fetchReject).error =
      some "Please enter exactly 46 comma-separated numbers" ∧
    strContains "Please enter exactly 46 comma-separated numbers" (toString (0 : Nat)) = false :=
  ⟨by decide, by decide, by decide⟩

/-- Claim C2 amended: for inputs that are nonempty after trimming, all of
whose tokens are valid numbers but whose token count differs from 46,
parsing fails and the surfaced error states the actual count; for inputs
that are empty after trimming, parsing fails with a fixed generic message
instead. -/
theorem C2_count_error_amended :
    (∀ (input : String) (fetch : List JSNum → FetchOutcome),
      jsTrim input ≠ "" →
      (∀ t ∈ splitCommaStr (jsTrim input), (jsParseFloat (jsTrim t)).isNaN = false) →
      (splitCommaStr (jsTrim input)).length ≠ 46 →
      parseFeatures input =
        ParseOutcome.failure
          ("Expected 46 features, but got " ++ toString (splitCommaStr (jsTrim input)).length) ∧
      (finalState input fetch).error =
        some ("Expected 46 features, but got " ++
          toString (splitCommaStr (jsTrim input)).length)) ∧
    (∀ (input : String) (fetch : List JSNum → FetchOutcome),
      jsTrim input = "" →
      parseFeatures input = ParseOutcome.nullResult ∧
      (finalState input fetch).error =
        some "Please enter exactly 46 comma-separated numbers") := by
  constructor
  · intro input fetch hne hval hlen
    have hpt := parseTokens_ok_of_valid _ hval
    have hmaplen :
        ((splitCommaStr (jsTrim input)).map fun t => jsParseFloat (jsTrim t)).length =
          (splitCommaStr (jsTrim input)).length := List.length_map _ _
    have hpf : parseFeatures input =
        ParseOutcome.failure
          ("Expected 46 features, but got " ++
            toString (splitCommaStr (jsTrim input)).length) := by
      simp [parseFeatures, hne, hpt, hmaplen, hlen]
    exact ⟨hpf, by rw [finalState_failure input fetch _ hpf]⟩
  · intro input fetch h0
    have hpf : parseFeatures input = ParseOutcome.nullResult := by
      simp [parseFeatures, h0]
    exact ⟨hpf, by rw [finalState_nullResult input fetch hpf]⟩

/-- Witness for the amended C2: a two-number input yields the counting
error, and a whitespace input yields the generic message. -/
theorem C2_count_error_amended_witness :
    ((finalState "1,2" fetchReject).error =
      some ("Expected 46 features, but got " ++
        toString (splitCommaStr (jsTrim "1,2")).length)) ∧
    (finalState " " fetchReject).error =
      some "Please enter exactly 46 comma-separated numbers" :=
  ⟨(C2_count_error_amended.1 "1,2" fetchReject (by decide) (by decide) (by decide)).2,
   (C2_count_error_amended.2 " " fetchReject (by decide)).2⟩

/-- Claim C3: for any input one of whose tokens is not a valid number,
parsing never yields a vector, and the surfaced error message contains the
trimmed text of an offending token. -/
theorem C3_invalid_token_named :
    ∀ (input : String) (fetch : List JSNum → FetchOutcome),
      (∃ t ∈ splitCommaStr (jsTrim input), (jsParseFloat (jsTrim t)).isNaN = true) →
      (∀ v, parseFeatures input ≠ ParseOutcome.ok v) ∧
      ∃ m, (finalState input fetch).error = some m ∧
        ∃ t ∈ splitCommaStr (jsTrim input),
          (jsParseFloat (jsTrim t)).isNaN = true ∧ strContains m (jsTrim t) = true := by
  intro input fetch hex
  by_cases h0 : jsTrim input = ""
  · have hpf : parseFeatures input = ParseOutcome.nullResult := by
      simp [parseFeatures, h0]
    refine ⟨fun v hv => ?_, ?_⟩
    · rw [hpf] at hv; cases hv
    refine ⟨"Please enter exactly 46 comma-separated numbers",
      by rw [finalState_nullResult input fetch hpf], "", ?_, by decide, strContains_empty _⟩
    rw [h0]
    decide
  · obtain ⟨t, ht, hnan, herr⟩ := parseTokens_error_of_invalid _ hex
    have hpf : parseFeatures input =
        ParseOutcome.failure ("Invalid number: " ++ jsTrim t) := by
      simp [parseFeatures, h0, herr]
    refine ⟨fun v hv => ?_, ?_⟩
    · rw [hpf] at hv; cases hv
    exact ⟨"Invalid number: " ++ jsTrim t,
      by rw [finalState_failure input fetch _ hpf], t, ht, hnan,
      strContains_append_right "Invalid number: " (jsTrim t)⟩

/-- Witness for C3 at a concrete non-numeric input. -/
theorem C3_invalid_token_named_witness :
    (∀ v, parseFeatures "1, x" ≠ ParseOutcome.ok v) ∧
    ∃ m, (finalState "1, x" fetchReject).error = some m ∧
      ∃ t ∈ splitCommaStr (jsTrim "1, x"),
        (jsParseFloat (jsTrim t)).isNaN = true ∧ strContains m (jsTrim t) = true :=
  C3_invalid_token_named "1, x" fetchReject (by decide)

/-- Claim C4 as stated is false: a token "Infinity" passes the NaN check,
so a successfully returned vector can contain a non-finite element. -/
theorem C4_invariant_counterexample :
    parseFeatures inputInf46 =
      ParseOutcome.ok (JSNum.posInf :: List.replicate 45 (JSNum.fin 1)) ∧
    JSNum.posInf ∈ (JSNum.posInf :: List.replicate 45 (JSNum.fin 1)) ∧
    JSNum.posInf.isFinite = false :=
  ⟨by decide, by decide, by decide⟩

/-- Claim C4 amended: every vector parseFeatures returns has length 46 and
contains no NaN element (elements may still be infinities, since the code
only rejects NaN). -/
theorem C4_invariant_amended :
    ∀ (input : String) (v : List JSNum),
      parseFeatures input = ParseOutcome.ok v →
      v.length = 46 ∧ ∀ x ∈ v, x ≠ JSNum.nan := by
  intro input v hv
  have h := parseFeatures_ok_elim input v hv
  exact ⟨h.2.2, parseTokens_ok_not_nan _ v h.2.1⟩

/-- Witness for the amended C4 at the concrete 46-number input. -/
theorem C4_invariant_amended_witness :
    (List.replicate 46 (JSNum.fin 1)).length = 46 ∧
    ∀ x ∈ List.replicate 46 (JSNum.fin 1), x ≠ JSNum.nan :=
  C4_invariant_amended input46 (List.replicate 46 (JSNum.fin 1)) (by decide)

/-- A fetch oracle that resolves successfully with the given body. -/
def fetchOk (r : RespBody) : List JSNum → FetchOutcome :=
  fun _ => FetchOutcome.resolve true 200 "OK" (JsonOutcome.parsed r)

/-- A fetch oracle that resolves with a non-OK status and a decoded error
body carrying the given detail field. -/
def fetchErrDetail (d : Option String) (status : Nat) (statusText : String) :
    List JSNum → FetchOutcome :=
  fun _ => FetchOutcome.resolve false status statusText (JsonOutcome.parsed ⟨d, 0, 0⟩)

lemma handlePredict_ok_cases (input : String) (fetch : List JSNum → FetchOutcome)
    (f0 : List JSNum) (hp : parseFeatures input = .ok f0) :
    (∃ m, handlePredict input fetch =
        [Event.setError none, Event.setResult none, Event.setLoading true,
         Event.fetchCall f0, Event.setError (some m), Event.setLoading false]) ∨
    (∃ r, handlePredict input fetch =
        [Event.setError none, Event.setResult none, Event.setLoading true,
         Event.fetchCall f0, Event.setResult (some r), Event.setLoading false]) := by
  cases hfo : fetch f0 with
  | reject m => exact Or.inl ⟨m, by simp [handlePredict, hp, hfo]⟩
  | resolve rok status st body =>
    cases body with
    | parseFail m =>
      cases rok
      · exact Or.inl ⟨m, by simp [handlePredict, hp, hfo]⟩
      · exact Or.inl ⟨m, by simp [handlePredict, hp, hfo]⟩
    | parsed d =>
      cases rok
      · exact Or.inl ⟨errorDetailMessage d.detail status st, by simp [handlePredict, hp, hfo]⟩
      · exact Or.inr ⟨⟨d.prediction, d.default_probability⟩, by simp [handlePredict, hp, hfo]⟩

/-- Claim C5 as stated is false: a submission whose input fails to parse
never passes through the Loading state, because the code parses before
calling setLoading(true). -/
theorem C5_loading_counterexample :
    handlePredict "x" fetchReject =
      [Event.setError none, Event.setResult none,
       Event.setError (some "Invalid number: x"), Event.setLoading false] ∧
    Event.setLoading true ∉ handlePredict "x" fetchReject :=
  ⟨by decide, by decide⟩

/-- Claim C5 amended: every submission first clears the prior error and
result; every submission ends by clearing Loading, and finishes with
exactly one of error or result set; but the input is parsed before the
Loading transition, so a submission whose parse fails never sets loading
to true, while a submission whose parse succeeds transitions to Loading and
then issues the fetch. -/
theorem C5_transitions_amended :
    ∀ (input : String) (fetch : List JSNum → FetchOutcome),
      (handlePredict input fetch).take 2 = [Event.setError none, Event.setResult none] ∧
      (handlePredict input fetch).getLast? = some (Event.setLoading false) ∧
      (finalState input fetch).loading = false ∧
      (finalState input fetch).error.isSome = !(finalState input fetch).result.isSome ∧
      (parseFeatures input = ParseOutcome.nullResult →
        Event.setLoading true ∉ handlePredict input fetch) ∧
      (∀ m, parseFeatures input = ParseOutcome.failure m →
        Event.setLoading true ∉ handlePredict input fetch) ∧
      (∀ f, parseFeatures input = ParseOutcome.ok f →
        (handlePredict input fetch).take 4 =
          [Event.setError none, Event.setResult none, Event.setLoading true,
           Event.fetchCall f]) := by
  intro input fetch
  rcases hp : parseFeatures input with _ | m0 | f0
  · have ht := handlePredict_nullResult input fetch hp
    have hs := finalState_nullResult input fetch hp
    rw [ht, hs]
    refine ⟨rfl, rfl, rfl, rfl, fun _ => by simp, fun m hm => by simp, fun f hf => ?_⟩
    cases hf
  · have ht := handlePredict_failure input fetch m0 hp
    have hs := finalState_failure input fetch m0 hp
    rw [ht, hs]
    refine ⟨rfl, rfl, rfl, rfl, fun _ => by simp, fun m hm => by simp, fun f hf => ?_⟩
    cases hf
  · rcases handlePredict_ok_cases input fetch f0 hp with ⟨m, ht⟩ | ⟨r, ht⟩
    · have hs : finalState input fetch = ⟨false, none, some m⟩ := by
        simp [finalState, ht, runEvents, applyEvent, initialState]
      rw [ht, hs]
      refine ⟨rfl, rfl, rfl, rfl, fun hm => ?_, fun m' hm => ?_, fun f hf => ?_⟩
      · cases hm
      · cases hm
      · injection hf with h; subst h; rfl
    · have hs : finalState input fetch = ⟨false, some r, none⟩ := by
        simp [finalState, ht, runEvents, applyEvent, initialState]
      rw [ht, hs]
      refine ⟨rfl, rfl, rfl, rfl, fun hm => ?_, fun m' hm => ?_, fun f hf => ?_⟩
      · cases hm
      · cases hm
      · injection hf with h; subst h; rfl

/-- Witness for the amended C5: a parse failure skips Loading, a valid
input passes through Loading before the fetch. -/
theorem C5_transitions_amended_witness :
    Event.setLoading true ∉ handlePredict "x" fetchReject ∧
    (handlePredict input46 fetchReject).take 4 =
      [Event.setError none, Event.setResult none, Event.setLoading true,
       Event.fetchCall (List.replicate 46 (JSNum.fin 1))] :=
  ⟨(C5_transitions_amended "x" fetchReject).2.2.2.2.2.1 "Invalid number: x" (by decide),
   (C5_transitions_amended input46 fetchReject).2.2.2.2.2.2
     (List.replicate 46 (JSNum.fin 1)) (by decide)⟩

/-- Claim C6: when the input fails validation, no fetch event occurs and an
error is surfaced. -/
theorem C6_no_fetch_on_parse_failure :
    ∀ (input : String) (fetch : List JSNum → FetchOutcome),
      (parseFeatures input = ParseOutcome.nullResult ∨
        ∃ m, parseFeatures input = ParseOutcome.failure m) →
      (∀ f, Event.fetchCall f ∉ handlePredict input fetch) ∧
      ∃ m, (finalState input fetch).error = some m := by
  intro input fetch h
  rcases h with h | ⟨m, h⟩
  · constructor
    · intro f
      rw [handlePredict_nullResult input fetch h]
      simp
    · exact ⟨_, by rw [finalState_nullResult input fetch h]⟩
  · constructor
    · intro f
      rw [handlePredict_failure input fetch m h]
      simp
    · exact ⟨m, by rw [finalState_failure input fetch m h]⟩

/-- Witness for C6 at a concrete invalid input. -/
theorem C6_no_fetch_on_parse_failure_witness :
    (∀ f, Event.fetchCall f ∉ handlePredict "1, x" fetchReject) ∧
    ∃ m, (finalState "1, x" fetchReject).error = some m :=
  C6_no_fetch_on_parse_failure "1, x" fetchReject
    (Or.inr ⟨"Invalid number: x", by decide⟩)

/-- Claim C7: getRiskLevel maps a probability below 3/10 to the Low label,
between 3/10 inclusive and 7/10 exclusive to Medium, and at or above 7/10
to High. -/
theorem C7_risk_level_thresholds :
    ∀ p : ℚ,
      (p < mkRat 3 10 → (getRiskLevel p).level = "Low") ∧
      (mkRat 3 10 ≤ p → p < mkRat 7 10 → (getRiskLevel p).level = "Medium") ∧
      (mkRat 7 10 ≤ p → (getRiskLevel p).level = "High") := by
  intro p
  refine ⟨fun h => ?_, fun h1 h2 => ?_, fun h => ?_⟩
  · simp [getRiskLevel, h]
  · simp only [getRiskLevel]
    rw [if_neg (not_lt.mpr h1), if_pos h2]
  · have h37 : (mkRat 3 10 : ℚ) ≤ mkRat 7 10 := by decide
    simp only [getRiskLevel]
    rw [if_neg (not_lt.mpr (le_trans h37 h)), if_neg (not_lt.mpr h)]

/-- Witness for C7 at one probability in each tier. -/
theorem C7_risk_level_thresholds_witness :
    (getRiskLevel (mkRat 1 10)).level = "Low" ∧
    (getRiskLevel (mkRat 1 2)).level = "Medium" ∧
    (getRiskLevel (mkRat 9 10)).level = "High" :=
  ⟨(C7_risk_level_thresholds (mkRat 1 10)).1 (by decide),
   (C7_risk_level_thresholds (mkRat 1 2)).2.1 (by decide) (by decide),
   (C7_risk_level_thresholds (mkRat 9 10)).2.2 (by decide)⟩

/-- Claim C8: a successful response with prediction 1 and probability 0.82
renders "Default Risk", "82.0%" and the high-risk styling; prediction 0
with probability 0.12 renders "Safe Loan" with the low-risk styling. -/
theorem C8_render_examples :
    (finalState input46 (fetchOk ⟨none, 1, mkRat 82 100⟩)).result =
      some ⟨1, mkRat 82 100⟩ ∧
    predictionText ⟨1, mkRat 82 100⟩ = "Default Risk" ∧
    probabilityText ⟨1, mkRat 82 100⟩ = "82.0%" ∧
    (getRiskLevel (mkRat 82 100)).level = "High" ∧
    (getRiskLevel (mkRat 82 100)).color = "text-red-600" ∧
    riskBarClass (mkRat 82 100) = "bg-gradient-to-r from-red-500 to-red-600" ∧
    (finalState input46 (fetchOk ⟨none, 0, mkRat 12 100⟩)).result =
      some ⟨0, mkRat 12 100⟩ ∧
    predictionText ⟨0, mkRat 12 100⟩ = "Safe Loan" ∧
    (getRiskLevel (mkRat 12 100)).level = "Low" ∧
    (getRiskLevel (mkRat 12 100)).color = "text-emerald-600" ∧
    riskBarClass (mkRat 12 100) = "bg-gradient-to-r from-emerald-500 to-emerald-600" := by
  decide

/-- Claim C9 as stated is false: a present but empty detail field is falsy
in JavaScript, so the code displays the generic status fallback rather than
the detail value. -/
theorem C9_detail_display_counterexample :
    (finalState input46 (fetchErrDetail (some "") 500 "Internal Server Error")).error =
      some "HTTP 500: Internal Server Error" ∧
    ("HTTP 500: Internal Server Error" : String) ≠ "" :=
  ⟨by decide, by decide⟩

/-- Claim C9 amended: on a non-OK response whose body decodes, the displayed
error is the detail field when present and nonempty, and the generic
"HTTP status: statusText" fallback when the detail is absent or empty. -/
theorem C9_detail_display_amended :
    (∀ (input : String) (fetch : List JSNum → FetchOutcome) (f : List JSNum)
        (status : Nat) (statusText : String) (d : RespBody),
      parseFeatures input = ParseOutcome.ok f →
      fetch f = FetchOutcome.resolve false status statusText (JsonOutcome.parsed d) →
      (finalState input fetch).error =
        some (errorDetailMessage d.detail status statusText)) ∧
    (∀ (s : String) (status : Nat) (statusText : String),
      s ≠ "" → errorDetailMessage (some s) status statusText = s) ∧
    (∀ (status : Nat) (statusText : String),
      errorDetailMessage none status statusText =
        "HTTP " ++ toString status ++ ": " ++ statusText) ∧
    (∀ (status : Nat) (statusText : String),
      errorDetailMessage (some "") status statusText =
        "HTTP " ++ toString status ++ ": " ++ statusText) := by
  refine ⟨?_, ?_, fun _ _ => rfl, fun _ _ => ?_⟩
  · intro input fetch f status statusText d hp hf
    rw [finalState_respErr_parsed input fetch f status statusText d hp hf]
  · intro s status statusText hs
    simp [errorDetailMessage, hs]
  · simp [errorDetailMessage]

/-- Witness for the amended C9: a nonempty detail is displayed verbatim. -/
theorem C9_detail_display_amended_witness :
    (finalState input46
        (fetchErrDetail (some "model unavailable") 503 "Service Unavailable")).error =
      some (errorDetailMessage (some "model unavailable") 503 "Service Unavailable") ∧
    errorDetailMessage (some "model unavailable") 503 "Service Unavailable" =
      "model unavailable" :=
  ⟨C9_detail_display_amended.1 input46
      (fetchErrDetail (some "model unavailable") 503 "Service Unavailable")
      (List.replicate 46 (JSNum.fin 1)) 503 "Service Unavailable"
      ⟨some "model unavailable", 0, 0⟩ (by decide) rfl,
   C9_detail_display_amended.2.1 "model unavailable" 503 "Service Unavailable" (by decide)⟩

/-- Claim C10: the risk label and the bar gradient agree on tiers for every
probability except exactly 3/10 and 7/10; at 3/10 the label is Medium while
the bar is the emerald low-tier gradient, and at 7/10 the label is High
while the bar is the amber medium-tier gradient. -/
theorem C10_label_bar_agreement :
    (∀ p : ℚ, p ≠ mkRat 3 10 → p ≠ mkRat 7 10 →
      riskBarClass p = tierGradient (getRiskLevel p).level) ∧
    (getRiskLevel (mkRat 3 10)).level = "Medium" ∧
    riskBarClass (mkRat 3 10) = "bg-gradient-to-r from-emerald-500 to-emerald-600" ∧
    (getRiskLevel (mkRat 7 10)).level = "High" ∧
    riskBarClass (mkRat 7 10) = "bg-gradient-to-r from-amber-500 to-amber-600" := by
  refine ⟨?_, by decide, by decide, by decide, by decide⟩
  intro p h3 h7
  rcases lt_trichotomy p (mkRat 3 10) with hlt | heq | hgt
  · have hn7 : ¬ mkRat 7 10 < p :=
      not_lt.mpr (le_of_lt (lt_of_lt_of_le hlt (by decide)))
    have hn3 : ¬ mkRat 3 10 < p := not_lt.mpr (le_of_lt hlt)
    simp [riskBarClass, getRiskLevel, tierGradient, hlt, hn3, hn7]
  · exact absurd heq h3
  · rcases lt_trichotomy p (mkRat 7 10) with hlt7 | heq7 | hgt7
    · have hn7 : ¬ mkRat 7 10 < p := not_lt.mpr (le_of_lt hlt7)
      have hnl : ¬ p < mkRat 3 10 := not_lt.mpr (le_of_lt hgt)
      simp [riskBarClass, getRiskLevel, tierGradient, hgt, hn7, hnl, hlt7]
    · exact absurd heq7 h7
    · have hn3 : ¬ p < mkRat 3 10 := not_lt.mpr (le_of_lt hgt)
      have hn7 : ¬ p < mkRat 7 10 := not_lt.mpr (le_of_lt hgt7)
      simp [riskBarClass, getRiskLevel, tierGradient, hgt7, hn3, hn7]

/-- Witness for C10 at a probability away from the two boundaries. -/
theorem C10_label_bar_agreement_witness :
    riskBarClass (mkRat 1 2) = tierGradient (getRiskLevel (mkRat 1 2)).level :=
  C10_label_bar_agreement.1 (mkRat 1 2) (by decide) (by decide)

example : jsParseFloat "1.5" = JSNum.fin (mkRat 3 2) := by decide
example : jsParseFloat "abc" = JSNum.nan := by decide
example : jsParseFloat "" = JSNum.nan := by decide
example : jsParseFloat "-Infinity" = JSNum.negInf := by decide
example : jsParseFloat "Infinity" = JSNum.posInf := by decide
example : jsParseFloat "1e2" = JSNum.fin 100 := by decide
example : jsParseFloat "1e-2" = JSNum.fin (mkRat 1 100) := by decide
example : jsParseFloat "-.5" = JSNum.fin (mkRat (-1) 2) := by decide
example : jsParseFloat "1." = JSNum.fin 1 := by decide
example : jsParseFloat "." = JSNum.nan := by decide
example : jsParseFloat "0x10" = JSNum.fin 0 := by decide
example : jsParseFloat "1.2.3" = JSNum.fin (mkRat 6 5) := by decide
example : jsParseFloat "1e" = JSNum.fin 1 := by decide
example : splitCommaStr "a,,b" = ["a", "", "b"] := by decide
example : splitCommaStr "" = [""] := by decide
example : jsTrim "  x y  " = "x y" := by decide
example : parseFeatures "" = ParseOutcome.nullResult := by decide
example : parseFeatures "1,2" = ParseOutcome.failure "Expected 46 features, but got 2" := by decide
example : parseFeatures "1, x" = ParseOutcome.failure "Invalid number: x" := by decide
example : parseFeatures input46 = ParseOutcome.ok (List.replicate 46 (JSNum.fin 1)) := by decide
example : parseFeatures inputInf46 = ParseOutcome.ok (JSNum.posInf :: List.replicate 45 (JSNum.fin 1)) := by decide
example : toFixed1 (mul100 (mkRat 82 100)) = "82.0" := by decide
example : toFixed1 (mul100 (mkRat 12 100)) = "12.0" := by decide
example : toFixed1 (mkRat 25 1000) = "0.0" := by decide
example : toFixed1 (mkRat 5 100) = "0.1" := by decide
example : (finalState "x" fetchReject).error = some "Invalid number: x" := by decide
example : (finalState "x" fetchReject).loading = false := by decide
example : (finalState "" fetchReject).error = some "Please enter exactly 46 comma-separated numbers" := by decide
example : (finalState input46 fetchReject).error = some "Failed to fetch" := by decide
example : (finalState input46
    (fun _ => FetchOutcome.resolve true 200 "OK" (JsonOutcome.parsed ⟨none, 1, mkRat 82 100⟩))).result
    = some ⟨1, mkRat 82 100⟩ := by decide
example : (finalState input46
    (fun _ => FetchOutcome.resolve false 500 "Internal Server Error"
      (JsonOutcome.parsed ⟨some "model unavailable", 0, 0⟩))).error
    = some "model unavailable" := by decide
example : (finalState input46
    (fun _ => FetchOutcome.resolve false 500 "Internal Server Error"
      (JsonOutcome.parsed ⟨some "", 0, 0⟩))).error
    = some "HTTP 500: Internal Server Error" := by decide
example : strContains "abc def" "c d" = true := by decide
example : strContains "abc" "" = true := by decide
example : strContains "Please enter exactly 46 comma-separated numbers" "0" = false := by decide
